import Mathlib

/-!
Verification of the IBM-Attrition HR analytics application (`src/main.py`).

The computational core is embedded shallowly:
* `FinancialAnalysisCalculator.calculate_attrition_cost` and
  `estimate_annual_savings` (Python floats are embedded as exact rationals ℚ);
* the fallback branch of `make_prediction` (heuristic risk score);
* the feature encoder `prepare_model_input`.

Python's `int()` truncation is embedded by `pyInt`; the `ZeroDivisionError`
that Python raises on a zero denominator is embedded by returning `none`.
-/

namespace IBMAttrition

/-- The five per-component cost multipliers (fractions of annual salary),
mirroring the keys of `cost_components` in `src/main.py`. -/
structure CostMultipliers where
  recruitment : ℚ
  training : ℚ
  productivity_loss : ℚ
  separation : ℚ
  opportunity_cost : ℚ
deriving DecidableEq, Repr

/-- `default_multiplier` column of `_define_cost_components` (global defaults). -/
def default_multipliers : CostMultipliers :=
  ⟨0.2, 0.15, 0.50, 0.05, 0.10⟩

/-- `indonesia_multiplier` column of `_define_cost_components`. -/
def indonesia_multipliers : CostMultipliers :=
  ⟨0.18, 0.12, 0.45, 0.08, 0.07⟩

/-- `benefits` block of the INDONESIA regional config: `thr_bonus`. -/
def thr_bonus : ℚ := 0.083

/-- `benefits` block of the INDONESIA regional config: `jamsostek`. -/
def jamsostek : ℚ := 0.054

/-- `benefits` block of the INDONESIA regional config: `severance_multiplier`. -/
def severance_multiplier : ℚ := 2.0

/-- Multiplier selection in `calculate_attrition_cost`:
`custom_multipliers` if supplied, else the Indonesia column when
`region == "INDONESIA"`, else the global default column. -/
def resolveMultipliers (region : String) (custom : Option CostMultipliers) :
    CostMultipliers :=
  match custom with
  | some m => m
  | none =>
    if region = ("INDONESIA") then indonesia_multipliers else default_multipliers

/-- The three statutory terms added to the `separation` component when
`region == "INDONESIA"` (severance, THR bonus, Jamsostek), else 0. -/
def separationAddOn (region : String) (annual_salary : ℚ) : ℚ :=
  if region = ("INDONESIA") then
    annual_salary * severance_multiplier / 12 + annual_salary * thr_bonus +
      annual_salary * jamsostek
  else 0

/-- The cost breakdown returned by `calculate_attrition_cost`: the five
component amounts, the total, and total cost as a percentage of salary. -/
structure CostBreakdown where
  recruitment : ℚ
  training : ℚ
  productivity_loss : ℚ
  separation : ℚ
  opportunity_cost : ℚ
  total_cost : ℚ
  cost_as_percentage_of_salary : ℚ
deriving DecidableEq, Repr

/-- `FinancialAnalysisCalculator.calculate_attrition_cost`: per-component cost
is `annual_salary * multiplier`, with the statutory add-on folded into the
`separation` component for region INDONESIA; the total is the sum of the five
(possibly augmented) component costs. -/
def calculate_attrition_cost (annual_salary : ℚ) (region : String)
    (custom : Option CostMultipliers) : CostBreakdown :=
  let ms := resolveMultipliers region custom
  let recruitment_cost := annual_salary * ms.recruitment
  let training_cost := annual_salary * ms.training
  let productivity_cost := annual_salary * ms.productivity_loss
  let separation_cost :=
    annual_salary * ms.separation + separationAddOn region annual_salary
  let opportunity_cost_amt := annual_salary * ms.opportunity_cost
  let total := recruitment_cost + training_cost + productivity_cost +
    separation_cost + opportunity_cost_amt
  ⟨recruitment_cost, training_cost, productivity_cost, separation_cost,
    opportunity_cost_amt, total, total / annual_salary * 100⟩

/-- Sum of the five multipliers of a `CostMultipliers` set. -/
def CostMultipliers.sum (m : CostMultipliers) : ℚ :=
  m.recruitment + m.training + m.productivity_loss + m.separation +
    m.opportunity_cost

/-- Python's `int()` applied to a rational: truncation toward zero. -/
def pyInt (q : ℚ) : ℤ :=
  if 0 ≤ q then ⌊q⌋ else ⌈q⌉

/-- The projection returned by `estimate_annual_savings`. -/
structure SavingsProjection where
  annual_attrition_cases : ℤ
  cost_per_case : ℚ
  current_annual_cost : ℚ
  predicted_cases : ℚ
  prevented_cases : ℚ
  annual_savings : ℚ
  savings_percentage : ℚ
deriving DecidableEq, Repr

/-- `FinancialAnalysisCalculator.estimate_annual_savings`.  The Python source
divides by `current_annual_cost` unconditionally; when that denominator is 0
Python raises an unhandled `ZeroDivisionError`, embedded here as `none`. -/
def estimate_annual_savings (total_employees attrition_rate avg_salary
    prediction_accuracy intervention_effectiveness : ℚ) (region : String) :
    Option SavingsProjection :=
  let annual_attrition_cases := pyInt (total_employees * (attrition_rate / 100))
  let cost_per_case := (calculate_attrition_cost avg_salary region none).total_cost
  let current_annual_cost := (annual_attrition_cases : ℚ) * cost_per_case
  let predicted_cases :=
    (annual_attrition_cases : ℚ) * (prediction_accuracy / 100)
  let prevented_cases := predicted_cases * (intervention_effectiveness / 100)
  let annual_savings := prevented_cases * cost_per_case
  if current_annual_cost = 0 then none
  else
    some ⟨annual_attrition_cases, cost_per_case, current_annual_cost,
      predicted_cases, prevented_cases, annual_savings,
      annual_savings / current_annual_cost * 100⟩

/-- An `AttributeSet`: the `hr_input` dict of `src/main.py`, a partial map
from attribute name to numeric/coded value (`none` = key absent). -/
def AttributeSet : Type := String → Option ℚ

/-- Python's `hr_input.get(key, default)`. -/
def attrGet (hr : AttributeSet) (key : String) (default : ℚ) : ℚ :=
  (hr key).getD default

/-- Raw heuristic risk score of the fallback branch of `make_prediction`:
`0.3 + OverTime*0.2 + (1 - JobSatisfaction/4)*0.3 + (1 - WorkLifeBalance/4)*0.2`
with dict defaults 0, 3, 3 respectively. -/
def fallback_risk_raw (hr : AttributeSet) : ℚ :=
  0.3 + attrGet hr ("OverTime") 0 * 0.2 +
    (1 - attrGet hr ("JobSatisfaction") 3 / 4) * 0.3 +
    (1 - attrGet hr ("WorkLifeBalance") 3 / 4) * 0.2

/-- Clamped risk score: `min(max(risk_score, 0.05), 0.95)`. -/
def fallback_risk (hr : AttributeSet) : ℚ :=
  min (max (fallback_risk_raw hr) 0.05) 0.95

/-- Fallback branch of `make_prediction` (`model is None`): binary label
(1 = leave when risk > 0.5, else 0 = stay) and the probability pair
`[1 - risk, risk]`. -/
def make_prediction_fallback (hr : AttributeSet) : ℤ × (ℚ × ℚ) :=
  let risk_score := fallback_risk hr
  (if risk_score > 0.5 then 1 else 0, (1 - risk_score, risk_score))

/-- The `hr_key`s of `feature_mapping` in `prepare_model_input` (the mapping is
the identity on these thirteen names). -/
def feature_mapping_keys : List String :=
  [("Age"), ("MonthlyIncome"), ("YearsAtCompany"), ("YearsInCurrentRole"),
   ("YearsSinceLastPromotion"), ("DistanceFromHome"), ("PercentSalaryHike"),
   ("JobLevel"), ("StockOptionLevel"), ("JobSatisfaction"),
   ("WorkLifeBalance"), ("EnvironmentSatisfaction"), ("PerformanceRating")]

/-- The `categorical_mappings` dict of `prepare_model_input`: the value written
to each of the six derived one-hot slots, `none` for any other slot name. -/
def categorical_value (hr : AttributeSet) (slot : String) : Option ℚ :=
  if slot = ("Gender_Male") then
    some (if attrGet hr ("Gender") 0 = 1 then 1 else 0)
  else if slot = ("MaritalStatus_Married") then
    some (if attrGet hr ("MaritalStatus") 0 = 1 then 1 else 0)
  else if slot = ("MaritalStatus_Single") then
    some (if attrGet hr ("MaritalStatus") 0 = 0 then 1 else 0)
  else if slot = ("OverTime_Yes") then
    some (if attrGet hr ("OverTime") 0 = 1 then 1 else 0)
  else if slot = ("BusinessTravel_Travel_Frequently") then
    some (if attrGet hr ("BusinessTravel") 0 = 2 then 1 else 0)
  else if slot = ("BusinessTravel_Travel_Rarely") then
    some (if attrGet hr ("BusinessTravel") 0 = 1 then 1 else 0)
  else none

/-- Final value of one schema slot after `prepare_model_input` runs: the row is
initialized to 0, direct-name matches present in the `hr_input` dict overwrite
their slot, then the six derived categorical slots are overwritten (the two
name families are disjoint, so the sequential overwrites commute to this case
split). -/
def slot_value (hr : AttributeSet) (slot : String) : ℚ :=
  match categorical_value hr slot with
  | some v => v
  | none =>
    if slot ∈ feature_mapping_keys then
      match hr slot with
      | some v => v
      | none => 0
    else 0

/-- `prepare_model_input`: the single-row DataFrame, as the ordered association
list of (slot name, final value) over the schema `feature_names`. -/
def prepare_model_input (hr : AttributeSet) (feature_names : List String) :
    List (String × ℚ) :=
  feature_names.map fun f => (f, slot_value hr f)

/-- Modelled from the spec: the trained classifier artifact
(`models/logistic_regression_model.pkl`) is an opaque serialized object, not
source code under `src/`; per the model metadata and the spec it is a logistic
regression, whose `predict_proba` returns the class-probability pair
`(1 - sigmoid z, sigmoid z)` for the decision value `z` of the (possibly
scaled) feature vector. -/
noncomputable def sigmoid (z : ℝ) : ℝ :=
  1 / (1 + Real.exp (-z))

/-- Modelled from the spec: Model-mode `predict_proba` of the logistic
regression on feature vector `x` with weights `w` and intercept `b`. -/
noncomputable def model_predict_proba (w : List ℝ) (b : ℝ) (x : List ℝ) :
    ℝ × ℝ :=
  let z := (List.zipWith (fun a c => a * c) w x).sum + b
  (1 - sigmoid z, sigmoid z)

/-- Spec-side restatement of the fallback formula, following the spec's words:
`risk = 0.3 + 0.2·[overtime=yes] + 0.3·(1 − jobSatisfaction/4) +
0.2·(1 − workLifeBalance/4)` (Iverson bracket on the overtime code). -/
def fallback_risk_spec (overtime jobSatisfaction workLifeBalance : ℚ) : ℚ :=
  0.3 + (if overtime = 1 then 0.2 else 0) + 0.3 * (1 - jobSatisfaction / 4) +
    0.2 * (1 - workLifeBalance / 4)

/-- The extreme input of the spec's example: overtime = yes (code 1),
jobSatisfaction = 1, workLifeBalance = 1. -/
def highRiskInput : AttributeSet := fun k =>
  if k = ("OverTime") then some 1
  else if k = ("JobSatisfaction") then some 1
  else if k = ("WorkLifeBalance") then some 1
  else none

/-- C1: in Fallback mode, for every AttributeSet whose overtime code is a
valid enumeration value (0 or 1), the computed risk equals the spec formula
`0.3 + 0.2·[overtime=yes] + 0.3·(1 − jobSatisfaction/4) +
0.2·(1 − workLifeBalance/4)` clamped to [0.05, 0.95]; the label is leave (1)
exactly when risk > 0.5 (else stay, 0); the probability pair is
(1 − risk, risk); and the extreme input overtime=yes, jobSatisfaction=1,
workLifeBalance=1 yields risk 0.875 with label leave. -/
theorem fallback_mode_spec (hr : AttributeSet)
    (hov : attrGet hr ("OverTime") 0 = 0 ∨ attrGet hr ("OverTime") 0 = 1) :
    fallback_risk hr =
      min (max (fallback_risk_spec (attrGet hr ("OverTime") 0)
        (attrGet hr ("JobSatisfaction") 3)
        (attrGet hr ("WorkLifeBalance") 3)) 0.05) 0.95 ∧
    0.05 ≤ fallback_risk hr ∧ fallback_risk hr ≤ 0.95 ∧
    ((make_prediction_fallback hr).1 = 1 ↔ fallback_risk hr > 0.5) ∧
    ((make_prediction_fallback hr).1 = 0 ↔ ¬ fallback_risk hr > 0.5) ∧
    (make_prediction_fallback hr).2 = (1 - fallback_risk hr, fallback_risk hr) ∧
    fallback_risk highRiskInput = 0.875 ∧
    (make_prediction_fallback highRiskInput).1 = 1 := by
  refine ⟨?_, ?_, ?_, ?_, ?_, rfl, ?_, ?_⟩
  · unfold fallback_risk fallback_risk_raw fallback_risk_spec
    rcases hov with h | h <;> rw [h] <;> norm_num <;> ring_nf
  · exact le_min (le_max_right _ _) (by norm_num)
  · exact min_le_right _ _
  · by_cases h : fallback_risk hr > 0.5 <;> simp [make_prediction_fallback, h]
  · by_cases h : fallback_risk hr > 0.5 <;> simp [make_prediction_fallback, h]
  · norm_num [fallback_risk, fallback_risk_raw, highRiskInput, attrGet,
      min_def, max_def]
  · norm_num [make_prediction_fallback, fallback_risk, fallback_risk_raw,
      highRiskInput, attrGet, min_def, max_def]

/-- Witness for `fallback_mode_spec` at the concrete extreme input. -/
theorem fallback_mode_spec_witness :
    (attrGet highRiskInput ("OverTime") 0 = 0 ∨
      attrGet highRiskInput ("OverTime") 0 = 1) ∧
    fallback_risk highRiskInput = 0.875 ∧
    (make_prediction_fallback highRiskInput).1 = 1 :=
  ⟨Or.inr rfl,
    (fallback_mode_spec highRiskInput (Or.inr rfl)).2.2.2.2.2.2.1,
    (fallback_mode_spec highRiskInput (Or.inr rfl)).2.2.2.2.2.2.2⟩

/-- C2: in both modes the probability pair is normalized: each entry lies in
[0, 1] and the two entries sum to 1 — in Fallback mode for every AttributeSet,
and in Model mode for every weight vector, intercept and feature vector of the
(spec-modelled) logistic-regression classifier. -/
theorem probability_normalization :
    (∀ hr : AttributeSet,
      0 ≤ (make_prediction_fallback hr).2.1 ∧
      (make_prediction_fallback hr).2.1 ≤ 1 ∧
      0 ≤ (make_prediction_fallback hr).2.2 ∧
      (make_prediction_fallback hr).2.2 ≤ 1 ∧
      (make_prediction_fallback hr).2.1 + (make_prediction_fallback hr).2.2 = 1) ∧
    (∀ (w : List ℝ) (b : ℝ) (x : List ℝ),
      0 ≤ (model_predict_proba w b x).1 ∧ (model_predict_proba w b x).1 ≤ 1 ∧
      0 ≤ (model_predict_proba w b x).2 ∧ (model_predict_proba w b x).2 ≤ 1 ∧
      (model_predict_proba w b x).1 + (model_predict_proba w b x).2 = 1) := by
  constructor
  · intro hr
    have hub : fallback_risk hr ≤ 0.95 := min_le_right _ _
    have hlb : (0.05 : ℚ) ≤ fallback_risk hr :=
      le_min (le_max_right _ _) (by norm_num)
    have e1 : (make_prediction_fallback hr).2.1 = 1 - fallback_risk hr := rfl
    have e2 : (make_prediction_fallback hr).2.2 = fallback_risk hr := rfl
    rw [e1, e2]
    refine ⟨by linarith, by linarith, by linarith, by linarith, by ring⟩
  · intro w b x
    have hs0 : 0 < sigmoid ((List.zipWith (fun a c => a * c) w x).sum + b) := by
      unfold sigmoid; positivity
    have hs1 : sigmoid ((List.zipWith (fun a c => a * c) w x).sum + b) < 1 := by
      unfold sigmoid
      rw [div_lt_one (by positivity)]
      linarith [Real.exp_pos (-((List.zipWith (fun a c => a * c) w x).sum + b))]
    have e1 : (model_predict_proba w b x).1 =
        1 - sigmoid ((List.zipWith (fun a c => a * c) w x).sum + b) := rfl
    have e2 : (model_predict_proba w b x).2 =
        sigmoid ((List.zipWith (fun a c => a * c) w x).sum + b) := rfl
    rw [e1, e2]
    refine ⟨by linarith, by linarith, by linarith, by linarith, by ring⟩

/-- C3: for region INDONESIA with its default multipliers and statutory
parameters, `calculate_attrition_cost 120000000` returns total cost exactly
144440000, with components recruitment 21600000, training 14400000,
productivity loss 54000000, separation 46040000 (base 9600000 plus severance
20000000 plus THR bonus 9960000 plus insurance 6480000) and opportunity cost
8400000; the three statutory terms are added on top of the base separation
multiplier cost, not substituted for it. -/
theorem indonesia_statutory_augmentation :
    (calculate_attrition_cost 120000000 ("INDONESIA") none).total_cost =
      144440000 ∧
    (calculate_attrition_cost 120000000 ("INDONESIA") none).recruitment =
      21600000 ∧
    (calculate_attrition_cost 120000000 ("INDONESIA") none).training =
      14400000 ∧
    (calculate_attrition_cost 120000000 ("INDONESIA") none).productivity_loss =
      54000000 ∧
    (calculate_attrition_cost 120000000 ("INDONESIA") none).separation =
      46040000 ∧
    (calculate_attrition_cost 120000000 ("INDONESIA") none).opportunity_cost =
      8400000 ∧
    (calculate_attrition_cost 120000000 ("INDONESIA") none).separation =
      120000000 * indonesia_multipliers.separation +
        (120000000 * severance_multiplier / 12 + 120000000 * thr_bonus +
          120000000 * jamsostek) ∧
    120000000 * indonesia_multipliers.separation = 9600000 ∧
    120000000 * severance_multiplier / 12 = 20000000 ∧
    120000000 * thr_bonus = 9960000 ∧
    120000000 * jamsostek = 6480000 := by
  simp only [calculate_attrition_cost, resolveMultipliers, separationAddOn,
    indonesia_multipliers, thr_bonus, jamsostek, severance_multiplier,
    String.reduceEq, reduceIte]
  norm_num

/-- C4: for every positive annual salary, every region other than INDONESIA
(no statutory add-ons) and any resolved multiplier set, the total cost equals
`annualSalary * S` where `S` is the sum of the five resolved multipliers, and
the cost-as-percentage-of-salary equals `S * 100`; in particular for region
GLOBAL with default multipliers and salary 60000 the total cost is 60000 and
the percentage is 100. -/
theorem cost_additivity_nonstatutory (annual_salary : ℚ) (region : String)
    (custom : Option CostMultipliers) (hsal : 0 < annual_salary)
    (hreg : region ≠ ("INDONESIA")) :
    (calculate_attrition_cost annual_salary region custom).total_cost =
      annual_salary * (resolveMultipliers region custom).sum ∧
    (calculate_attrition_cost annual_salary region custom).cost_as_percentage_of_salary =
      (resolveMultipliers region custom).sum * 100 ∧
    (calculate_attrition_cost 60000 ("GLOBAL") none).total_cost = 60000 ∧
    (calculate_attrition_cost 60000 ("GLOBAL") none).cost_as_percentage_of_salary =
      100 := by
  have haddon : separationAddOn region annual_salary = 0 := by
    simp [separationAddOn, hreg]
  have htot : (calculate_attrition_cost annual_salary region custom).total_cost =
      annual_salary * (resolveMultipliers region custom).sum := by
    simp only [calculate_attrition_cost, CostMultipliers.sum, haddon]
    ring
  refine ⟨htot, ?_, ?_, ?_⟩
  · have hpct : (calculate_attrition_cost annual_salary region custom).cost_as_percentage_of_salary =
        (calculate_attrition_cost annual_salary region custom).total_cost /
          annual_salary * 100 := rfl
    rw [hpct, htot, mul_comm annual_salary, mul_div_assoc,
      div_self (ne_of_gt hsal), mul_one]
  · simp only [calculate_attrition_cost, resolveMultipliers, separationAddOn,
      default_multipliers, String.reduceEq, reduceIte]
    norm_num
  · simp only [calculate_attrition_cost, resolveMultipliers, separationAddOn,
      default_multipliers, String.reduceEq, reduceIte]
    norm_num

/-- Witness for `cost_additivity_nonstatutory` at salary 60000, region
GLOBAL, default multipliers. -/
theorem cost_additivity_nonstatutory_witness :
    ((0 : ℚ) < 60000 ∧ ("GLOBAL" : String) ≠ ("INDONESIA")) ∧
    (calculate_attrition_cost 60000 ("GLOBAL") none).total_cost =
      60000 * (resolveMultipliers ("GLOBAL") none).sum :=
  ⟨⟨by norm_num, by decide⟩,
    (cost_additivity_nonstatutory 60000 ("GLOBAL") none (by norm_num)
      (by decide)).1⟩

/-- C5: `estimate_annual_savings` computes, in order: annualCases =
floor(totalEmployees · attritionRate/100); costPerCase = the cost-model total
for avgSalary and region; currentAnnualCost = annualCases · costPerCase;
predictedCases = annualCases · accuracy/100; preventedCases =
predictedCases · effectiveness/100; annualSavings =
preventedCases · costPerCase; savingsPercentage =
annualSavings/currentAnnualCost · 100; and the concrete pipeline
(1000, 16, 60000, GLOBAL, 87, 30) yields (160, 60000, 9600000, 139.2,
41.76, 2505600, 26.1). -/
theorem savings_pipeline (total_employees attrition_rate avg_salary
    prediction_accuracy intervention_effectiveness : ℚ) (region : String)
    (hnn : 0 ≤ total_employees * (attrition_rate / 100))
    (hnz : (⌊total_employees * (attrition_rate / 100)⌋ : ℚ) *
      (calculate_attrition_cost avg_salary region none).total_cost ≠ 0) :
    (∀ p : SavingsProjection,
      estimate_annual_savings total_employees attrition_rate avg_salary
        prediction_accuracy intervention_effectiveness region = some p →
      p.annual_attrition_cases = ⌊total_employees * (attrition_rate / 100)⌋ ∧
      p.cost_per_case =
        (calculate_attrition_cost avg_salary region none).total_cost ∧
      p.current_annual_cost = (p.annual_attrition_cases : ℚ) * p.cost_per_case ∧
      p.predicted_cases =
        (p.annual_attrition_cases : ℚ) * (prediction_accuracy / 100) ∧
      p.prevented_cases = p.predicted_cases * (intervention_effectiveness / 100) ∧
      p.annual_savings = p.prevented_cases * p.cost_per_case ∧
      p.savings_percentage = p.annual_savings / p.current_annual_cost * 100) ∧
    (∃ p : SavingsProjection,
      estimate_annual_savings total_employees attrition_rate avg_salary
        prediction_accuracy intervention_effectiveness region = some p) ∧
    estimate_annual_savings 1000 16 60000 87 30 ("GLOBAL") =
      some ⟨160, 60000, 9600000, 139.2, 41.76, 2505600, 26.1⟩ := by
  have hfloor : pyInt (total_employees * (attrition_rate / 100)) =
      ⌊total_employees * (attrition_rate / 100)⌋ := by
    simp [pyInt, hnn]
  refine ⟨?_, ?_, ?_⟩
  · intro p hp
    simp only [estimate_annual_savings, hfloor] at hp
    rw [if_neg hnz] at hp
    cases hp
    exact ⟨rfl, rfl, rfl, rfl, rfl, rfl, rfl⟩
  · have h : (estimate_annual_savings total_employees attrition_rate avg_salary
        prediction_accuracy intervention_effectiveness region).isSome := by
      simp only [estimate_annual_savings, hfloor]
      rw [if_neg hnz]
      rfl
    exact Option.isSome_iff_exists.mp h
  · simp only [estimate_annual_savings, pyInt, calculate_attrition_cost,
      resolveMultipliers, separationAddOn, default_multipliers,
      String.reduceEq, reduceIte]
    norm_num

/-- Witness for `savings_pipeline` at the concrete spec example. -/
theorem savings_pipeline_witness :
    (0 ≤ (1000 : ℚ) * (16 / 100) ∧
      (⌊(1000 : ℚ) * (16 / 100)⌋ : ℚ) *
        (calculate_attrition_cost 60000 ("GLOBAL") none).total_cost ≠ 0) ∧
    estimate_annual_savings 1000 16 60000 87 30 ("GLOBAL") =
      some ⟨160, 60000, 9600000, 139.2, 41.76, 2505600, 26.1⟩ := by
  have hnn : 0 ≤ (1000 : ℚ) * (16 / 100) := by norm_num
  have hnz : (⌊(1000 : ℚ) * (16 / 100)⌋ : ℚ) *
      (calculate_attrition_cost 60000 ("GLOBAL") none).total_cost ≠ 0 := by
    simp only [calculate_attrition_cost, resolveMultipliers, separationAddOn,
      default_multipliers, String.reduceEq, reduceIte]
    norm_num
  exact ⟨⟨hnn, hnz⟩,
    (savings_pipeline 1000 16 60000 87 30 ("GLOBAL") hnn hnz).2.2⟩

/-- C6 (code behavior at the failing input): when the computed current annual
cost is 0 — e.g. zero employees, or a zero attrition rate — the Python source
divides by it unconditionally and raises an unhandled `ZeroDivisionError`
(embedded as `none`) instead of returning a sentinel savings percentage. -/
theorem zero_cost_division_unhandled :
    estimate_annual_savings 0 16 60000 87 30 ("GLOBAL") = none ∧
    estimate_annual_savings 1000 0 60000 87 30 ("GLOBAL") = none := by
  constructor <;>
    · simp only [estimate_annual_savings, pyInt, calculate_attrition_cost,
        resolveMultipliers, separationAddOn, default_multipliers,
        String.reduceEq, reduceIte]
      norm_num

/-- C7: multiplier resolution precedence — an explicit override beats the
region-specific (INDONESIA) defaults, which beat the global defaults — and
each component's breakdown amount depends only on its own multiplier, so
varying a single component's override changes only that component's cost. -/
theorem override_precedence (annual_salary : ℚ) (region : String)
    (m mo : CostMultipliers) (hreg : region ≠ ("INDONESIA")) :
    resolveMultipliers region (some m) = m ∧
    resolveMultipliers ("INDONESIA") (some m) = m ∧
    resolveMultipliers ("INDONESIA") none = indonesia_multipliers ∧
    resolveMultipliers region none = default_multipliers ∧
    (∀ r : String,
      (m.recruitment = mo.recruitment →
        (calculate_attrition_cost annual_salary r (some m)).recruitment =
          (calculate_attrition_cost annual_salary r (some mo)).recruitment) ∧
      (m.training = mo.training →
        (calculate_attrition_cost annual_salary r (some m)).training =
          (calculate_attrition_cost annual_salary r (some mo)).training) ∧
      (m.productivity_loss = mo.productivity_loss →
        (calculate_attrition_cost annual_salary r (some m)).productivity_loss =
          (calculate_attrition_cost annual_salary r (some mo)).productivity_loss) ∧
      (m.separation = mo.separation →
        (calculate_attrition_cost annual_salary r (some m)).separation =
          (calculate_attrition_cost annual_salary r (some mo)).separation) ∧
      (m.opportunity_cost = mo.opportunity_cost →
        (calculate_attrition_cost annual_salary r (some m)).opportunity_cost =
          (calculate_attrition_cost annual_salary r (some mo)).opportunity_cost)) := by
  refine ⟨rfl, rfl, by simp [resolveMultipliers],
    by simp [resolveMultipliers, hreg], fun r => ⟨?_, ?_, ?_, ?_, ?_⟩⟩ <;>
    · intro h
      simp [calculate_attrition_cost, resolveMultipliers, h]

/-- Witness for `override_precedence` at a concrete salary, region and pair of
multiplier sets differing only in the recruitment component. -/
theorem override_precedence_witness :
    (("GLOBAL" : String) ≠ ("INDONESIA")) ∧
    resolveMultipliers ("GLOBAL") (some ⟨0.3, 0.15, 0.50, 0.05, 0.10⟩) =
      ⟨0.3, 0.15, 0.50, 0.05, 0.10⟩ ∧
    (calculate_attrition_cost 60000 ("GLOBAL")
        (some ⟨0.3, 0.15, 0.50, 0.05, 0.10⟩)).training =
      (calculate_attrition_cost 60000 ("GLOBAL")
        (some ⟨0.2, 0.15, 0.50, 0.05, 0.10⟩)).training := by
  have hreg : ("GLOBAL" : String) ≠ ("INDONESIA") := by decide
  refine ⟨hreg, ?_, ?_⟩
  · exact (override_precedence 60000 ("GLOBAL") ⟨0.3, 0.15, 0.50, 0.05, 0.10⟩
      ⟨0.2, 0.15, 0.50, 0.05, 0.10⟩ hreg).1
  · exact ((override_precedence 60000 ("GLOBAL") ⟨0.3, 0.15, 0.50, 0.05, 0.10⟩
      ⟨0.2, 0.15, 0.50, 0.05, 0.10⟩ hreg).2.2.2.2 ("GLOBAL")).2.1 rfl

/-- Concrete AttributeSet containing only an Age attribute (for witnesses). -/
def ageOnlyInput : AttributeSet := fun k =>
  if k = ("Age") then some 31 else none

/-- The empty AttributeSet: no attribute present. -/
def emptyInput : AttributeSet := fun _ => none

/-- C8: the encoder is a total function with no error outcome: the output row
carries exactly the schema's slot names in order; a slot with a direct name
match present in the AttributeSet is overwritten with that attribute's value;
a direct-match slot whose attribute is missing silently stays at its 0
initialization; a slot with no mapping rule remains 0; and the six derived
one-hot slots are computed from the corresponding categorical codes. -/
theorem encoder_total_spec (hr : AttributeSet) (feature_names : List String)
    (slot : String) (v : ℚ) :
    (prepare_model_input hr feature_names).map Prod.fst = feature_names ∧
    (slot ∈ feature_mapping_keys → hr slot = some v → slot_value hr slot = v) ∧
    (slot ∈ feature_mapping_keys → hr slot = none → slot_value hr slot = 0) ∧
    (categorical_value hr slot = none → slot ∉ feature_mapping_keys →
      slot_value hr slot = 0) ∧
    slot_value hr ("Gender_Male") =
      (if attrGet hr ("Gender") 0 = 1 then 1 else 0) ∧
    slot_value hr ("MaritalStatus_Married") =
      (if attrGet hr ("MaritalStatus") 0 = 1 then 1 else 0) ∧
    slot_value hr ("MaritalStatus_Single") =
      (if attrGet hr ("MaritalStatus") 0 = 0 then 1 else 0) ∧
    slot_value hr ("OverTime_Yes") =
      (if attrGet hr ("OverTime") 0 = 1 then 1 else 0) ∧
    slot_value hr ("BusinessTravel_Travel_Frequently") =
      (if attrGet hr ("BusinessTravel") 0 = 2 then 1 else 0) ∧
    slot_value hr ("BusinessTravel_Travel_Rarely") =
      (if attrGet hr ("BusinessTravel") 0 = 1 then 1 else 0) := by
  have hcat : ∀ s : String, s ∈ feature_mapping_keys →
      categorical_value hr s = none := by
    intro s hs
    simp only [feature_mapping_keys, List.mem_cons, List.not_mem_nil,
      or_false] at hs
    rcases hs with h | h | h | h | h | h | h | h | h | h | h | h | h <;>
      subst h <;> simp [categorical_value]
  refine ⟨?_, ?_, ?_, ?_, ?_, ?_, ?_, ?_, ?_, ?_⟩
  · simp only [prepare_model_input, List.map_map]
    exact List.map_id'' (fun _ => rfl) _
  · intro hmem hsome
    simp [slot_value, hcat slot hmem, hmem, hsome]
  · intro hmem hnone
    simp [slot_value, hcat slot hmem, hmem, hnone]
  · intro hnocat hnomem
    simp [slot_value, hnocat, hnomem]
  all_goals simp [slot_value, categorical_value]

/-- Witness for `encoder_total_spec`: the schema slot Age with an AttributeSet
that supplies Age = 31, and the direct-match overwrite it entails. -/
theorem encoder_total_spec_witness :
    (("Age") ∈ feature_mapping_keys ∧ ageOnlyInput ("Age") = some 31) ∧
    slot_value ageOnlyInput ("Age") = 31 := by
  have hmem : ("Age") ∈ feature_mapping_keys := by
    simp [feature_mapping_keys]
  have hsome : ageOnlyInput ("Age") = some 31 := rfl
  exact ⟨⟨hmem, hsome⟩,
    (encoder_total_spec ageOnlyInput [("Age")] ("Age") 31).2.1 hmem hsome⟩

/-- C9: for region INDONESIA the three statutory terms (severance =
salary·2.0/12, THR bonus = salary·0.083, insurance = salary·0.054) are added
to the separation component even when the caller supplies a custom multiplier
override: the override replaces only the five base multipliers and never
suppresses the statutory add-ons. -/
theorem statutory_addon_survives_override (annual_salary : ℚ)
    (m : CostMultipliers) :
    (calculate_attrition_cost annual_salary ("INDONESIA") (some m)).separation =
      annual_salary * m.separation + (annual_salary * 2.0 / 12 +
        annual_salary * 0.083 + annual_salary * 0.054) ∧
    resolveMultipliers ("INDONESIA") (some m) = m := by
  refine ⟨?_, rfl⟩
  simp only [calculate_attrition_cost, resolveMultipliers, separationAddOn,
    severance_multiplier, thr_bonus, jamsostek, String.reduceEq, reduceIte]

/-- C10: an AttributeSet with no MaritalStatus attribute encodes
MaritalStatus_Single as 1 (the missing attribute defaults to code 0, the code
for single), identically to an explicit single status — not as an all-zero
one-hot encoding. -/
theorem missing_marital_status_encodes_single (hr : AttributeSet)
    (h : hr ("MaritalStatus") = none) :
    slot_value hr ("MaritalStatus_Single") = 1 ∧
    slot_value hr ("MaritalStatus_Single") =
      slot_value (fun k => if k = ("MaritalStatus") then some 0 else hr k)
        ("MaritalStatus_Single") ∧
    slot_value hr ("MaritalStatus_Married") = 0 := by
  refine ⟨?_, ?_, ?_⟩ <;>
    simp [slot_value, categorical_value, attrGet, h]

/-- Witness for `missing_marital_status_encodes_single` at the empty
AttributeSet. -/
theorem missing_marital_status_encodes_single_witness :
    emptyInput ("MaritalStatus") = none ∧
    slot_value emptyInput ("MaritalStatus_Single") = 1 :=
  ⟨rfl, (missing_marital_status_encodes_single emptyInput rfl).1⟩

end IBMAttrition
